import Mathlib

/-!
Verification of the streaming event pipeline of `chat_shell_101`.

The definitions below are a shallow embedding of the Python source:
  * `src/chat_shell_101/api/schemas.py` — the pydantic models
    (`ChatMessage`, `ChatRequest`, `ChatResponse`, `ChatEvent`,
    `SessionStatus`);
  * `src/chat_shell_101/api/routes.py` — the HTTP handlers
    (`start_chat`, `get_session_status`, `cancel_session`) over the
    process-wide registry `app_state["active_sessions"]`;
  * `src/chat_shell_101/api/sse.py` — `stream_chat_events`, the SSE
    generator wrapping `ChatAgent.stream`;
  * `src/chat_shell_101/agent.py` — the event-producing fragment of
    `ChatAgent.stream` (the tool-call loop, lines 156-205);
  * the `EventBuffer` of the `streaming` package, whose implementation
    module is not part of the sources and is therefore modelled from the
    specification text.

Machine-level details that are irrelevant to the verified properties are
modelled abstractly: `datetime` values become `Nat` tick counts, and JSON
payload values become a small closed value type (`JVal`, `J2`) that covers
every payload shape the source constructs.
-/

/-- JSON-like values appearing inside an event payload: the source builds
payload dictionaries whose values are strings, numbers, or flat
string-to-string dictionaries (the tool-call `input` arguments). -/
inductive JVal where
  | str (s : String)
  | num (n : Nat)
  | dict (fields : List (String × String))
deriving DecidableEq, Repr

/-- One level above `JVal`: a value of the outer SSE-frame `data` object,
which may itself be a nested JSON object (the `data` field produced by
`model_dump`). -/
inductive J2 where
  | v (x : JVal)
  | obj (fields : List (String × JVal))
deriving DecidableEq, Repr

/-- A JSON object at payload level: an ordered association list, as a
Python `dict` preserves insertion order. -/
abbrev Payload := List (String × JVal)

/-- Association-list field lookup in a frame-level JSON object. -/
def lookupField : List (String × J2) → String → Option J2
  | [], _ => none
  | (k, v) :: rest, key => if k = key then some v else lookupField rest key

/-- `MessageRole` from `api/schemas.py`. -/
inductive MessageRole where
  | user
  | assistant
  | system
deriving DecidableEq, Repr

/-- `ChatMessage` from `api/schemas.py` (timestamp optional, default none). -/
structure ChatMessage where
  role : MessageRole
  content : String
  timestamp : Option Nat := none
deriving DecidableEq, Repr

/-- `ChatRequest` from `api/schemas.py`, restricted to the fields the
route handlers read: `messages`, the optional `session_id`, and the
`stream` flag whose declared default is `True`. -/
structure ChatRequest where
  messages : List ChatMessage
  session_id : Option String := none
  stream : Bool := true
deriving DecidableEq, Repr

/-- `ChatResponse` from `api/schemas.py`. -/
structure ChatResponse where
  subtask_id : String
  session_id : String
  status : String
  created_at : Nat
deriving DecidableEq, Repr

/-- The closed set of `ChatEvent.event_type` literals from
`api/schemas.py`. -/
inductive EventKind where
  | content
  | tool_call
  | tool_result
  | thinking
  | error
  | complete
  | cancelled
deriving DecidableEq, Repr

/-- The wire name of each event kind, exactly the `Literal` strings of
`ChatEvent.event_type`. -/
def kindName : EventKind → String
  | .content => "content"
  | .tool_call => "tool_call"
  | .tool_result => "tool_result"
  | .thinking => "thinking"
  | .error => "error"
  | .complete => "complete"
  | .cancelled => "cancelled"

/-- `ChatEvent` from `api/schemas.py`: an event kind, a payload
dictionary, and a capture timestamp (defaulted by pydantic). -/
structure ChatEvent where
  event_type : EventKind
  data : Payload
  timestamp : Nat := 0
deriving DecidableEq, Repr

/-- `SessionStatus` from `api/schemas.py`. -/
structure SessionStatus where
  subtask_id : String
  session_id : String
  status : String
  created_at : Nat
  updated_at : Option Nat := none
  message_count : Nat := 0
  metadata : Option Payload := none
deriving DecidableEq, Repr

/-- The value stored in `app_state["active_sessions"][subtask_id]` by
`start_chat` in `api/routes.py` (lines 49-54). -/
structure SessionInfo where
  session_id : String
  status : String
  created_at : Nat
  messages : List ChatMessage
deriving DecidableEq, Repr

/-- The process-wide registry `app_state["active_sessions"]`: a Python
`dict`, embedded as an insertion-ordered association list with unique
keys maintained by the operations below. -/
abbrev Registry := List (String × SessionInfo)

/-- `app_state["active_sessions"].get(subtask_id)`. -/
def lookupSession : Registry → String → Option SessionInfo
  | [], _ => none
  | (k, v) :: rest, id => if k = id then some v else lookupSession rest id

/-- `subtask_id in app_state["active_sessions"]`. -/
def containsSession (reg : Registry) (id : String) : Bool :=
  (lookupSession reg id).isSome

/-- `app_state["active_sessions"][subtask_id] = info`: replace in place
when the key exists, append otherwise — Python `dict` assignment
semantics. -/
def insertSession : Registry → String → SessionInfo → Registry
  | [], id, info => [(id, info)]
  | (k, v) :: rest, id, info =>
      if k = id then (id, info) :: rest else (k, v) :: insertSession rest id info

/-- `app_state["active_sessions"][subtask_id]["status"] = st`: mutates the
entry when present, leaves the registry unchanged when absent (every call
site in the source guards with a membership test, and the guarded update
is extensionally this map). -/
def setStatus : Registry → String → String → Registry
  | [], _, _ => []
  | (k, v) :: rest, id, st =>
      if k = id then (k, { v with status := st }) :: setStatus rest id st
      else (k, v) :: setStatus rest id st

/-- An `HTTPException` as raised by the route handlers. -/
structure HTTPExc where
  status_code : Nat
  detail : String
deriving DecidableEq, Repr

/-- The JSON body returned by `cancel_session` on success
(`{"status": "cancelled", "subtask_id": subtask_id}`). -/
structure CancelResponse where
  status : String
  subtask_id : String
deriving DecidableEq, Repr

/-- `cancel_session` from `api/routes.py` (lines 109-125): 404 when the
subtask id is unknown, otherwise unconditionally set the stored status to
"cancelled" and return the success body. -/
def cancel_session (reg : Registry) (id : String) :
    Except HTTPExc CancelResponse × Registry :=
  if containsSession reg id then
    (.ok ⟨"cancelled", id⟩, setStatus reg id "cancelled")
  else
    (.error ⟨404, "Subtask not found"⟩, reg)

/-- `get_session_status` from `api/routes.py` (lines 83-106): 404 when the
subtask id is unknown, otherwise a `SessionStatus` built from the stored
entry, with `updated_at` set to the current time, `message_count` the
length of the stored messages, and `metadata` left at its default. -/
def get_session_status (reg : Registry) (id : String) (now : Nat) :
    Except HTTPExc SessionStatus :=
  match lookupSession reg id with
  | none => .error ⟨404, "Subtask not found"⟩
  | some s =>
      .ok { subtask_id := id
            session_id := s.session_id
            status := s.status
            created_at := s.created_at
            updated_at := some now
            message_count := s.messages.length
            metadata := none }

/-- The event kinds `ChatAgent.stream` in `agent.py` actually yields:
`thinking` (line 167), `tool_call` (line 172), `tool_result` (line 187),
`error` (line 192) and `content` (line 199). It never yields `complete`
or `cancelled`. -/
inductive UKind where
  | content
  | tool_call
  | tool_result
  | thinking
  | error
deriving DecidableEq, Repr

/-- The `ChatEvent` kind corresponding to each upstream kind
(`stream_chat_events` forwards the upstream `type` string verbatim into
the `event_type` literal). -/
def toChatKind : UKind → EventKind
  | .content => .content
  | .tool_call => .tool_call
  | .tool_result => .tool_result
  | .thinking => .thinking
  | .error => .error

/-- One `{type, data}` record yielded by `ChatAgent.stream`. -/
structure UEvent where
  type : UKind
  data : Payload
deriving DecidableEq, Repr

/-- One tool call found on an `AIMessage`, together with the outcome of
`tool_executor.ainvoke` on it: either a result string or the message of
the raised exception (`agent.py` lines 180-195). -/
structure ToolCall where
  name : String
  args : List (String × String)
  result : Except String String
deriving Repr

/-- The events `ChatAgent.stream` yields for one tool call with
`show_thinking = False` (its default): the `tool_call` event, then
either a `tool_result` event or — when the tool raises — an `error`
event carrying the formatted exception message, after which the loop
continues with the next tool call (`agent.py` lines 163-195). -/
def toolCallEvents (tc : ToolCall) : List UEvent :=
  [⟨.tool_call, [("tool", .str tc.name), ("input", .dict tc.args)]⟩] ++
    match tc.result with
    | .ok r => [⟨.tool_result, [("result", .str r)]⟩]
    | .error e => [⟨.error, [("message", .str ("工具执行错误: " ++ e))]⟩]

/-- One iteration of the graph-event loop in `ChatAgent.stream`: the
latest `AIMessage` either carries tool calls or plain content (empty
content yields nothing). -/
inductive AgentStep where
  | toolCalls (tcs : List ToolCall)
  | content (text : String)
deriving Repr

/-- The upstream events yielded for one agent step
(`agent.py` lines 161-202, with `show_thinking = False`). -/
def agentStepEvents : AgentStep → List UEvent
  | .toolCalls tcs => tcs.flatMap toolCallEvents
  | .content s => if s = "" then [] else [⟨.content, [("text", .str s)]⟩]

/-- The full upstream event sequence of one `ChatAgent.stream` run,
as the concatenation over the graph's value snapshots. -/
def agentStreamEvents (steps : List AgentStep) : List UEvent :=
  steps.flatMap agentStepEvents

/-- How one run of the upstream producer ends inside the `async for` of
`stream_chat_events`: normal exhaustion, an `asyncio.CancelledError`
delivered at a yield point, or any other exception with message `msg`. -/
inductive UpstreamEnd where
  | normal
  | cancelled
  | exn (msg : String)
deriving DecidableEq, Repr

/-- The forwarding of one upstream event by `stream_chat_events`
(line 30): `ChatEvent(event_type=event["type"], data=event["data"])`. -/
def passthruEvent (u : UEvent) : ChatEvent :=
  { event_type := toChatKind u.type, data := u.data }

/-- The single event appended by `stream_chat_events` after the upstream
iteration ends: `complete` with empty payload, `cancelled` with empty
payload, or `error` carrying `{"message": str(e)}`. -/
def terminalEvent : UpstreamEnd → ChatEvent
  | .normal => { event_type := .complete, data := [] }
  | .cancelled => { event_type := .cancelled, data := [] }
  | .exn msg => { event_type := .error, data := [("message", .str msg)] }

/-- The registry status written by `stream_chat_events` for each ending
(lines 37, 42, 47). -/
def endStatus : UpstreamEnd → String
  | .normal => "completed"
  | .cancelled => "cancelled"
  | .exn _ => "error"

/-- `stream_chat_events` from `api/sse.py`: forward every upstream event
as a `ChatEvent`, then append exactly one terminal event determined by
how the upstream iteration ended, and update the registry status of the
subtask (guarded by membership, which `setStatus` subsumes). The result
is the complete yielded event sequence paired with the final registry. -/
def stream_chat_events (upstream : List UEvent) (ending : UpstreamEnd)
    (subtask_id : String) (reg : Registry) : List ChatEvent × Registry :=
  (upstream.map passthruEvent ++ [terminalEvent ending],
   setStatus reg subtask_id (endStatus ending))

/-- The SSE frame yielded by `event_generator` in `start_chat`
(`api/routes.py` lines 65-68): `{"event": event.event_type,
"data": event.model_dump()}`. -/
structure SseFrame where
  event : String
  data : List (String × J2)
deriving DecidableEq, Repr

/-- `event.model_dump()`: the full pydantic serialization of a
`ChatEvent`, whose fields in declaration order are `event_type`, `data`
and `timestamp`. -/
def modelDump (e : ChatEvent) : List (String × J2) :=
  [("event_type", .v (.str (kindName e.event_type))),
   ("data", .obj e.data),
   ("timestamp", .v (.num e.timestamp))]

/-- The frame built for one event by `event_generator`. -/
def sseFrame (e : ChatEvent) : SseFrame :=
  ⟨kindName e.event_type, modelDump e⟩

/-- What the spec says the frame's data field should be: the event's
kind-specific payload alone, lifted to the frame-level JSON object. Used
only to compare against `sseFrame`. -/
def payloadOnlyData (e : ChatEvent) : List (String × J2) :=
  e.data.map (fun kv => (kv.1, J2.v kv.2))

/-- The value returned by `start_chat`: either an `EventSourceResponse`
(with the `X-Subtask-ID` header and the frames eventually streamed) or
the non-streaming JSON `ChatResponse`. -/
inductive StartChatResult where
  | sseStream (subtaskHeader : String) (frames : List SseFrame)
  | json (resp : ChatResponse)
deriving DecidableEq, Repr

/-- `start_chat` from `api/routes.py` (lines 34-80): mint the subtask id,
derive the session id, store the session entry with status "running",
then either stream (when `request.stream`) or answer with a
`ChatResponse` whose status literal is "created". The streamed run is
parameterised by the upstream producer's events and ending; the final
registry after the handler (and, in the streaming case, after the stream
is drained) is returned alongside. -/
def start_chat (req : ChatRequest) (subtask_id : String) (now : Nat)
    (steps : List AgentStep) (ending : UpstreamEnd) (reg : Registry) :
    StartChatResult × Registry :=
  let session_id := req.session_id.getD ("session-" ++ toString now)
  let reg1 := insertSession reg subtask_id
    { session_id := session_id, status := "running",
      created_at := now, messages := req.messages }
  if req.stream then
    let (events, reg2) :=
      stream_chat_events (agentStreamEvents steps) ending subtask_id reg1
    (.sseStream subtask_id (events.map sseFrame), reg2)
  else
    (.json ⟨subtask_id, session_id, "created", now⟩, reg1)

/-- One event as stored in the event buffer, with its assigned offset. -/
structure BufferedEvent where
  offset : Nat
  payload : Payload
deriving DecidableEq, Repr

/-- Modelled from the spec: the `EventBuffer` of the `streaming` package,
whose implementation module (`streaming/buffer.py`) is absent from the
sources — only its re-export in `streaming/__init__.py` remains. Per the
spec it is an ordered, bounded store with a fixed maximum event count and
a monotonic next-offset counter; offsets are assigned at append time,
never supplied by the producer. -/
structure EventBuffer where
  capacity : Nat
  events : List BufferedEvent
  nextOffset : Nat
deriving DecidableEq, Repr

/-- A fresh buffer for a newly created session: empty, next offset 0. -/
def EventBuffer.fresh (cap : Nat) : EventBuffer :=
  ⟨cap, [], 0⟩

/-- Modelled from the spec: `append(event-without-offset)` assigns the
next offset, stores the event, and on overflow ("when capacity is
exceeded, the oldest event is dropped and base offset incremented")
evicts FIFO. -/
def EventBuffer.append (b : EventBuffer) (p : Payload) : EventBuffer :=
  let stored := b.events ++ [⟨b.nextOffset, p⟩]
  { capacity := b.capacity
    events := if b.capacity < stored.length then stored.tail else stored
    nextOffset := b.nextOffset + 1 }

/-- Publishing a whole sequence of producer payloads to a buffer. -/
def EventBuffer.appendAll (b : EventBuffer) (ps : List Payload) : EventBuffer :=
  ps.foldl EventBuffer.append b

/-- The offsets currently stored in the buffer, in storage order. -/
def EventBuffer.storedOffsets (b : EventBuffer) : List Nat :=
  b.events.map BufferedEvent.offset

/-- The registry-mutating operations available after `start_chat` has
stored a session: cancelling via the DELETE route, the status updates a
drained SSE stream performs, and the read-only status poll (which leaves
the registry untouched). -/
inductive SessionOp where
  | cancel (id : String)
  | streamRun (upstream : List UEvent) (ending : UpstreamEnd) (id : String)
  | readStatus (id : String) (now : Nat)

/-- Effect of one registry operation on the registry. -/
def applyOp (reg : Registry) : SessionOp → Registry
  | .cancel id => (cancel_session reg id).2
  | .streamRun upstream ending id => (stream_chat_events upstream ending id reg).2
  | .readStatus _ _ => reg

/-- Effect of a sequence of registry operations. -/
def applyOps (reg : Registry) (ops : List SessionOp) : Registry :=
  ops.foldl applyOp reg

theorem lookupSession_setStatus (reg : Registry) (id st j) :
    lookupSession (setStatus reg id st) j =
      (lookupSession reg j).map
        (fun s => if j = id then { s with status := st } else s) := by
  induction reg with
  | nil => rfl
  | cons kv rest ih =>
      obtain ⟨k, v⟩ := kv
      by_cases hki : k = id
      · subst hki
        by_cases hkj : k = j
        · subst hkj
          simp [setStatus, lookupSession]
        · simp [setStatus, lookupSession, hkj, ih]
      · by_cases hkj : k = j
        · subst hkj
          simp [setStatus, lookupSession, hki, Ne.symm hki]
        · simp [setStatus, lookupSession, hki, hkj, ih]

theorem messages_lookupSession_setStatus (reg : Registry) (id st j) :
    (lookupSession (setStatus reg id st) j).map SessionInfo.messages =
      (lookupSession reg j).map SessionInfo.messages := by
  rw [lookupSession_setStatus]
  cases lookupSession reg j with
  | none => rfl
  | some s =>
      by_cases h : j = id <;> simp [h]

theorem containsSession_setStatus (reg : Registry) (id st j) :
    containsSession (setStatus reg id st) j = containsSession reg j := by
  rw [containsSession, containsSession, lookupSession_setStatus]
  cases lookupSession reg j <;> rfl

theorem setStatus_setStatus_self (reg : Registry) (id st) :
    setStatus (setStatus reg id st) id st = setStatus reg id st := by
  induction reg with
  | nil => rfl
  | cons kv rest ih =>
      obtain ⟨k, v⟩ := kv
      by_cases h : k = id <;> simp [setStatus, h, ih]

theorem lookupSession_insertSession_self (reg : Registry) (id info) :
    lookupSession (insertSession reg id info) id = some info := by
  induction reg with
  | nil => simp [insertSession, lookupSession]
  | cons kv rest ih =>
      by_cases h : kv.1 = id <;>
        simp [insertSession, lookupSession, h, ih]

theorem messages_applyOp (reg : Registry) (op : SessionOp) (j : String) :
    (lookupSession (applyOp reg op) j).map SessionInfo.messages =
      (lookupSession reg j).map SessionInfo.messages := by
  cases op with
  | cancel id =>
      simp only [applyOp, cancel_session]
      by_cases h : containsSession reg id <;>
        simp [h, messages_lookupSession_setStatus]
  | streamRun upstream ending id =>
      simp only [applyOp, stream_chat_events]
      exact messages_lookupSession_setStatus reg id (endStatus ending) j
  | readStatus id now => rfl

theorem messages_applyOps (reg : Registry) (ops : List SessionOp) (j : String) :
    (lookupSession (applyOps reg ops) j).map SessionInfo.messages =
      (lookupSession reg j).map SessionInfo.messages := by
  induction ops generalizing reg with
  | nil => rfl
  | cons op rest ih =>
      rw [applyOps, List.foldl_cons]
      rw [show List.foldl applyOp (applyOp reg op) rest = applyOps (applyOp reg op) rest from rfl]
      rw [ih (applyOp reg op), messages_applyOp]

theorem appendAll_fresh_state (cap : Nat) (ps : List Payload) :
    (EventBuffer.appendAll (EventBuffer.fresh cap) ps).capacity = cap ∧
    (EventBuffer.appendAll (EventBuffer.fresh cap) ps).nextOffset = ps.length ∧
    (EventBuffer.appendAll (EventBuffer.fresh cap) ps).storedOffsets =
      List.range' (ps.length - cap) (min ps.length cap) := by
  induction ps using List.reverseRecOn with
  | nil => simp [EventBuffer.appendAll, EventBuffer.fresh, EventBuffer.storedOffsets]
  | append_singleton qs p ih =>
      obtain ⟨hcap, hnext, hoff⟩ := ih
      have happ : EventBuffer.appendAll (EventBuffer.fresh cap) (qs ++ [p]) =
          (EventBuffer.appendAll (EventBuffer.fresh cap) qs).append p := by
        simp [EventBuffer.appendAll]
      set b := EventBuffer.appendAll (EventBuffer.fresh cap) qs with hb
      have hlen : b.events.length = min qs.length cap := by
        have := congrArg List.length hoff
        simpa [EventBuffer.storedOffsets] using this
      have hstored :
          (b.events ++ [({ offset := b.nextOffset, payload := p } : BufferedEvent)]).map
              BufferedEvent.offset =
            List.range' (qs.length - cap) (min qs.length cap) ++ [qs.length] := by
        rw [List.map_append,
          show List.map BufferedEvent.offset b.events = b.storedOffsets from rfl, hoff, hnext]
        rfl
      rcases Nat.lt_or_ge qs.length cap with hc | hc
      · -- below capacity: no eviction
        have hmin : min qs.length cap = qs.length := Nat.min_eq_left (Nat.le_of_lt hc)
        have hnotail :
            ¬ b.capacity <
              (b.events ++ [({ offset := b.nextOffset, payload := p } : BufferedEvent)]).length := by
          simp [hlen, hcap, hmin]
          omega
        refine ⟨by simp [happ, EventBuffer.append, hcap], by simp [happ, EventBuffer.append, hnext], ?_⟩
        rw [happ]
        simp only [EventBuffer.append, EventBuffer.storedOffsets, if_neg hnotail]
        rw [hstored, hmin]
        have h1 : qs.length - cap = 0 := by omega
        have h2 : (qs ++ [p]).length - cap = 0 := by simp; omega
        have h3 : min (qs ++ [p]).length cap = qs.length + 1 := by simp; omega
        rw [h1, h2, h3]
        simpa using (List.range'_1_concat 0 qs.length).symm
      · -- at capacity: the oldest stored event is evicted
        have hmin : min qs.length cap = cap := Nat.min_eq_right hc
        have htail :
            b.capacity <
              (b.events ++ [({ offset := b.nextOffset, payload := p } : BufferedEvent)]).length := by
          simp [hlen, hcap, hmin]
        refine ⟨by simp [happ, EventBuffer.append, hcap], by simp [happ, EventBuffer.append, hnext], ?_⟩
        rw [happ]
        simp only [EventBuffer.append, EventBuffer.storedOffsets, if_pos htail]
        rw [List.map_tail, hstored, hmin]
        have h4 : List.range' (qs.length - cap) cap ++ [qs.length] =
            List.range' (qs.length - cap) (cap + 1) := by
          have : (qs.length - cap) + cap = qs.length := by omega
          rw [List.range'_1_concat, this]
        rw [h4, List.range'_succ]
        have h5 : (qs ++ [p]).length - cap = qs.length - cap + 1 := by simp; omega
        have h6 : min (qs ++ [p]).length cap = cap := by simp; omega
        rw [h5, h6]
        rfl

/-- The claim that no event of kind `error` is ever followed by further
events on the stream, as a decidable check: true when some `error` event
has a successor. -/
def errorFollowedByMore : List ChatEvent → Bool
  | [] => false
  | [_] => false
  | e :: b :: rest =>
      (e.event_type == EventKind.error) || errorFollowedByMore (b :: rest)

/-- An agent run in which the first tool call raises inside
`tool_executor.ainvoke`, after which the tool loop continues and the
graph later yields plain content (`agent.py` lines 163-202). -/
def c1Steps : List AgentStep :=
  [AgentStep.toolCalls [{ name := "calculator", args := [("expr", "2+2")],
                          result := Except.error "boom" }],
   AgentStep.content "hi"]

/-- C1 counterexample: the SSE stream served for the run `c1Steps` emits
an `error` event (forwarded from the agent's failed tool execution) that
is followed by further events — a `content` event and the final
`complete` — so the claim that no `error` event is ever followed by
further events is false on this stream. -/
theorem mid_stream_error_followed_by_events :
    errorFollowedByMore
        (stream_chat_events (agentStreamEvents c1Steps) .normal "t1" []).1 = true ∧
    ((stream_chat_events (agentStreamEvents c1Steps) .normal "t1" []).1.map
        ChatEvent.event_type) =
      [EventKind.tool_call, EventKind.error, EventKind.content, EventKind.complete] := by
  constructor
  · rfl
  · rfl

/-- C1 amended: every stream produced by `stream_chat_events` terminates,
and its last event is the single generator-terminal event determined by
how the upstream run ended — `complete` on normal exhaustion, `cancelled`
on cancellation, `error` carrying the exception message otherwise; no
`complete` or `cancelled` event ever occurs before the final position.
(Events of kind `error` forwarded from the upstream agent, e.g. tool
failures, may however occur mid-stream and be followed by further
events, as the counterexample shows.) -/
theorem stream_single_terminal_event_last (us : List UEvent)
    (ending : UpstreamEnd) (id : String) (reg : Registry) :
    (stream_chat_events us ending id reg).1.getLast? = some (terminalEvent ending) ∧
    (stream_chat_events us ending id reg).1.dropLast.all
      (fun e => !(e.event_type == EventKind.complete) &&
                !(e.event_type == EventKind.cancelled)) = true := by
  constructor
  · simp only [stream_chat_events]
    exact List.getLast?_concat _
  · simp only [stream_chat_events, List.dropLast_concat, List.all_eq_true]
    intro e he
    obtain ⟨u, _, rfl⟩ := List.mem_map.mp he
    obtain ⟨t, d⟩ := u
    cases t <;> rfl

/-- A sample event as produced by the stream: a `content` chunk with
payload `{"text": "hi"}` captured at tick 5. -/
def c2Event : ChatEvent :=
  { event_type := .content, data := [("text", JVal.str "hi")], timestamp := 5 }

/-- C2 counterexample: the `data` field of the SSE frame built by
`event_generator` for `c2Event` is not the event's bare payload — it
contains a `timestamp` field and an `event_type` field, because the
route serializes `event.model_dump()` (the whole `ChatEvent`) into
`data`, not `event.data`. -/
theorem frame_data_not_bare_payload :
    (sseFrame c2Event).data ≠ payloadOnlyData c2Event ∧
    lookupField (sseFrame c2Event).data "timestamp" = some (J2.v (JVal.num 5)) ∧
    lookupField (sseFrame c2Event).data "event_type" =
      some (J2.v (JVal.str "content")) := by
  refine ⟨by decide, rfl, rfl⟩

/-- C2 amended: each emitted frame is an `{event, data}` record whose
`event` field is the event's kind name, and whose `data` field is the
full pydantic serialization of the `ChatEvent`: it holds exactly the
keys `event_type`, `data` and `timestamp`, with the kind-specific
payload nested under the inner `data` key rather than spread at the top
level. -/
theorem frame_data_is_full_model_dump (e : ChatEvent) :
    (sseFrame e).event = kindName e.event_type ∧
    (sseFrame e).data.map Prod.fst = ["event_type", "data", "timestamp"] ∧
    lookupField (sseFrame e).data "data" = some (J2.obj e.data) ∧
    lookupField (sseFrame e).data "event_type" =
      some (J2.v (JVal.str (kindName e.event_type))) ∧
    lookupField (sseFrame e).data "timestamp" = some (J2.v (JVal.num e.timestamp)) := by
  refine ⟨rfl, rfl, ?_, ?_, ?_⟩ <;> simp [sseFrame, modelDump, lookupField]

/-- A registry holding one session that has already completed. -/
def c3Reg : Registry :=
  [("t1", { session_id := "s1", status := "completed", created_at := 0,
            messages := [] })]

/-- C3 counterexample: `DELETE /response/t1` on the completed session in
`c3Reg` succeeds and rewrites the stored status from `completed` to
`cancelled`, so a terminal status is not final and no
`StreamCompletedError` is raised — the registry layer has no such
protection. -/
theorem delete_overwrites_completed_status :
    (lookupSession c3Reg "t1").map SessionInfo.status = some "completed" ∧
    (cancel_session c3Reg "t1").1 = Except.ok ⟨"cancelled", "t1"⟩ ∧
    (lookupSession (cancel_session c3Reg "t1").2 "t1").map SessionInfo.status =
      some "cancelled" := by
  refine ⟨rfl, rfl, rfl⟩

/-- C3 amended: the registry does not protect terminal statuses:
`cancel_session` on any session present in the registry succeeds and
unconditionally sets its stored status to `cancelled`, whatever the
previous status (including `completed` and `error`); re-entering the
`cancelled` status this way is idempotent on the registry, and the only
failure the route can produce is the 404 for an unknown id — no
`StreamCompletedError` exists at this layer. -/
theorem terminal_status_not_protected (reg : Registry) (id : String)
    (s : SessionInfo) (h : lookupSession reg id = some s) :
    (cancel_session reg id).1 = Except.ok ⟨"cancelled", id⟩ ∧
    lookupSession (cancel_session reg id).2 id = some { s with status := "cancelled" } ∧
    (cancel_session (cancel_session reg id).2 id).2 = (cancel_session reg id).2 := by
  have hc : containsSession reg id = true := by
    simp [containsSession, h]
  have h1 : (cancel_session reg id).2 = setStatus reg id "cancelled" := by
    simp [cancel_session, hc]
  refine ⟨by simp [cancel_session, hc], ?_, ?_⟩
  · rw [h1, lookupSession_setStatus, h]
    simp
  · have hc2 : containsSession (cancel_session reg id).2 id = true := by
      rw [h1, containsSession_setStatus]
      exact hc
    rw [h1] at hc2 ⊢
    simp [cancel_session, hc2, hc, setStatus_setStatus_self]

/-- C3 witness: the amended theorem applied to the concrete completed
session of `c3Reg`. -/
theorem terminal_status_not_protected_witness :
    (cancel_session c3Reg "t1").1 = Except.ok ⟨"cancelled", "t1"⟩ ∧
    lookupSession (cancel_session c3Reg "t1").2 "t1" =
      some { session_id := "s1", status := "cancelled", created_at := 0,
             messages := [] } := by
  have h := terminal_status_not_protected c3Reg "t1"
    { session_id := "s1", status := "completed", created_at := 0, messages := [] }
    (by decide)
  exact ⟨h.1, h.2.1⟩

/-- A sample producer payload for buffer runs. -/
def c4Payload : Payload := [("text", JVal.str "x")]

/-- C4 counterexample: on a fresh session whose buffer capacity is 3,
publishing N = 5 events leaves stored offsets `[2, 3, 4]` — the two
oldest events were evicted — so the stored offsets are not `0..N-1`. -/
theorem buffer_offsets_evicted_prefix :
    (EventBuffer.appendAll (EventBuffer.fresh 3)
        (List.replicate 5 c4Payload)).storedOffsets = [2, 3, 4] ∧
    (EventBuffer.appendAll (EventBuffer.fresh 3)
        (List.replicate 5 c4Payload)).storedOffsets ≠ List.range 5 := by
  refine ⟨rfl, by decide⟩

/-- C4 amended (spec-modelled buffer): after publishing N events to a
fresh session, the offset counter has assigned exactly the offsets
`0..N-1` (the next offset is N); the offsets still stored are the
gap-free strictly increasing run `max(0, N-capacity)..N-1` — the most
recent `min N capacity` of the assigned offsets, with no duplicates —
and they are exactly `0..N-1` whenever N does not exceed the buffer's
capacity. -/
theorem buffer_offsets_assigned_and_stored (cap : Nat) (ps : List Payload) :
    (EventBuffer.appendAll (EventBuffer.fresh cap) ps).nextOffset = ps.length ∧
    (EventBuffer.appendAll (EventBuffer.fresh cap) ps).storedOffsets =
      List.range' (ps.length - cap) (min ps.length cap) ∧
    List.Pairwise (· < ·)
      (EventBuffer.appendAll (EventBuffer.fresh cap) ps).storedOffsets ∧
    (ps.length ≤ cap →
      (EventBuffer.appendAll (EventBuffer.fresh cap) ps).storedOffsets =
        List.range ps.length) := by
  obtain ⟨-, hnext, hoff⟩ := appendAll_fresh_state cap ps
  refine ⟨hnext, hoff, ?_, ?_⟩
  · rw [hoff]
    exact List.pairwise_lt_range' _ _
  · intro hle
    rw [hoff, Nat.sub_eq_zero_of_le hle, Nat.min_eq_left hle]
    exact (List.range_eq_range' _).symm

/-- C4 witness: with capacity 4 and 3 published events the stored
offsets are exactly `0, 1, 2`. -/
theorem buffer_offsets_assigned_and_stored_witness :
    (EventBuffer.appendAll (EventBuffer.fresh 4)
        (List.replicate 3 c4Payload)).storedOffsets = List.range 3 :=
  (buffer_offsets_assigned_and_stored 4 (List.replicate 3 c4Payload)).2.2.2
    (by decide)

/-- C5: when the upstream producer raises an exception after yielding the
events `us`, `stream_chat_events` emits exactly the forwarded prefix
followed by a single `error` event whose payload carries the exception's
message; that `error` event is the last event of the stream (no further
producer events are emitted or accepted), and the session's registry
status — whenever the subtask is registered — becomes `error`. -/
theorem producer_exception_single_error_event (us : List UEvent) (msg : String)
    (id : String) (reg : Registry) :
    (stream_chat_events us (.exn msg) id reg).1 =
      us.map passthruEvent ++
        [{ event_type := .error, data := [("message", JVal.str msg)] }] ∧
    (stream_chat_events us (.exn msg) id reg).1.getLast? =
      some { event_type := .error, data := [("message", JVal.str msg)] } ∧
    (lookupSession (stream_chat_events us (.exn msg) id reg).2 id).map
        SessionInfo.status =
      (lookupSession reg id).map (fun _ => "error") := by
  refine ⟨rfl, ?_, ?_⟩
  · simp only [stream_chat_events]
    exact List.getLast?_concat _
  · simp only [stream_chat_events, endStatus]
    rw [lookupSession_setStatus]
    cases lookupSession reg id <;> simp

/-- A registry with one running session used to witness the status
route's contract. -/
def c6Reg : Registry :=
  [("t6", { session_id := "s6", status := "running", created_at := 2,
            messages := [{ role := .user, content := "hello" }] })]

/-- C6: `GET /response/{subtask_id}` returns, for a registered subtask,
the session status built from exactly the stored entry — subtask id,
session id, status, creation time, the poll time as `updated_at`, and
the stored message count (metadata stays at its null default); for an
unknown subtask it fails with HTTP 404, and a 404 (indeed any error) is
produced only in that case. -/
theorem get_session_status_contract (reg : Registry) (id : String) (now : Nat) :
    (∀ s, lookupSession reg id = some s →
      get_session_status reg id now =
        Except.ok { subtask_id := id, session_id := s.session_id,
                    status := s.status, created_at := s.created_at,
                    updated_at := some now,
                    message_count := s.messages.length, metadata := none }) ∧
    (lookupSession reg id = none →
      get_session_status reg id now = Except.error ⟨404, "Subtask not found"⟩) ∧
    (∀ e, get_session_status reg id now = Except.error e →
      lookupSession reg id = none ∧ e = ⟨404, "Subtask not found"⟩) := by
  cases h : lookupSession reg id <;>
    simp [get_session_status, h]

/-- C6 witness: the contract applied to `c6Reg` for a known and an
unknown subtask id. -/
theorem get_session_status_contract_witness :
    get_session_status c6Reg "t6" 9 =
      Except.ok { subtask_id := "t6", session_id := "s6", status := "running",
                  created_at := 2, updated_at := some 9, message_count := 1,
                  metadata := none } ∧
    get_session_status c6Reg "zz" 9 = Except.error ⟨404, "Subtask not found"⟩ := by
  constructor
  · exact (get_session_status_contract c6Reg "t6" 9).1
      { session_id := "s6", status := "running", created_at := 2,
        messages := [{ role := .user, content := "hello" }] } (by decide)
  · exact (get_session_status_contract c6Reg "zz" 9).2.1 (by decide)

/-- A registry with one running session used to witness cancellation
idempotence. -/
def c7Reg : Registry :=
  [("t7", { session_id := "s7", status := "running", created_at := 1,
            messages := [] })]

/-- C7: cancelling a registered session twice is idempotent: the first
DELETE succeeds, sets the stored status to `cancelled`, and the second
DELETE returns the very same success body (no error) and leaves the
registry exactly as the first left it. -/
theorem cancel_session_idempotent (reg : Registry) (id : String)
    (h : containsSession reg id = true) :
    (cancel_session reg id).1 = Except.ok ⟨"cancelled", id⟩ ∧
    (lookupSession (cancel_session reg id).2 id).map SessionInfo.status =
      (lookupSession reg id).map (fun _ => "cancelled") ∧
    cancel_session (cancel_session reg id).2 id =
      ((cancel_session reg id).1, (cancel_session reg id).2) := by
  have h1 : (cancel_session reg id).2 = setStatus reg id "cancelled" := by
    simp [cancel_session, h]
  have hc2 : containsSession (cancel_session reg id).2 id = true := by
    rw [h1, containsSession_setStatus]
    exact h
  refine ⟨by simp [cancel_session, h], ?_, ?_⟩
  · rw [h1, lookupSession_setStatus]
    cases lookupSession reg id <;> simp
  · rw [h1] at hc2 ⊢
    simp [cancel_session, hc2, h, setStatus_setStatus_self]

/-- C7 witness: double cancellation on the concrete registry `c7Reg`. -/
theorem cancel_session_idempotent_witness :
    (cancel_session c7Reg "t7").1 = Except.ok ⟨"cancelled", "t7"⟩ ∧
    cancel_session (cancel_session c7Reg "t7").2 "t7" =
      ((cancel_session c7Reg "t7").1, (cancel_session c7Reg "t7").2) := by
  have h := cancel_session_idempotent c7Reg "t7" (by decide)
  exact ⟨h.1, h.2.2⟩

/-- C8: `POST /response` stores the session and answers according to the
request's `stream` flag, whose declared default is true: when the flag
is true the response is the SSE stream (tagged with the subtask id
header); when it is false the response is the JSON `ChatResponse`
carrying `subtask_id`, `session_id` and `status`. -/
theorem start_chat_stream_or_json (req : ChatRequest) (subtask_id : String)
    (now : Nat) (steps : List AgentStep) (ending : UpstreamEnd) (reg : Registry) :
    (req.stream = true →
      (start_chat req subtask_id now steps ending reg).1 =
        .sseStream subtask_id
          ((stream_chat_events (agentStreamEvents steps) ending subtask_id
              (insertSession reg subtask_id
                { session_id := req.session_id.getD ("session-" ++ toString now),
                  status := "running", created_at := now,
                  messages := req.messages })).1.map sseFrame)) ∧
    (req.stream = false →
      (start_chat req subtask_id now steps ending reg).1 =
        .json { subtask_id := subtask_id,
                session_id := req.session_id.getD ("session-" ++ toString now),
                status := "created", created_at := now }) ∧
    (∀ msgs sid, ({ messages := msgs, session_id := sid } : ChatRequest).stream = true) := by
  refine ⟨?_, ?_, fun _ _ => rfl⟩ <;>
    intro h <;> simp [start_chat, h]

/-- C8 witness: the two response shapes at concrete requests, streaming
on (by default) and off. -/
theorem start_chat_stream_or_json_witness :
    (start_chat { messages := [], session_id := some "s8" } "t8" 0 [] .normal []).1 =
      .sseStream "t8"
        ((stream_chat_events (agentStreamEvents []) .normal "t8"
            (insertSession [] "t8"
              { session_id := "s8", status := "running", created_at := 0,
                messages := [] })).1.map sseFrame) ∧
    (start_chat { messages := [], session_id := some "s8", stream := false }
        "t8" 0 [] .normal []).1 =
      .json { subtask_id := "t8", session_id := "s8", status := "created",
              created_at := 0 } := by
  constructor
  · exact (start_chat_stream_or_json
      { messages := [], session_id := some "s8" } "t8" 0 [] .normal []).1 rfl
  · exact (start_chat_stream_or_json
      { messages := [], session_id := some "s8", stream := false }
      "t8" 0 [] .normal []).2.1 rfl

/-- C9: a non-streaming `POST /response` answers with the literal status
"created" while the registry entry it just stored carries status
"running"; an immediately following `GET /response/{subtask_id}`
therefore reports "running", never "created". -/
theorem nonstreaming_created_vs_running (msgs : List ChatMessage)
    (sid : Option String) (subtask_id : String) (now now2 : Nat) (reg : Registry) :
    (start_chat { messages := msgs, session_id := sid, stream := false }
        subtask_id now [] .normal reg).1 =
      .json { subtask_id := subtask_id,
              session_id := sid.getD ("session-" ++ toString now),
              status := "created", created_at := now } ∧
    (lookupSession
        (start_chat { messages := msgs, session_id := sid, stream := false }
          subtask_id now [] .normal reg).2 subtask_id).map SessionInfo.status =
      some "running" ∧
    (get_session_status
        (start_chat { messages := msgs, session_id := sid, stream := false }
          subtask_id now [] .normal reg).2 subtask_id now2).map
        SessionStatus.status =
      Except.ok "running" := by
  have hreg : (start_chat { messages := msgs, session_id := sid, stream := false }
      subtask_id now [] .normal reg).2 =
      insertSession reg subtask_id
        { session_id := sid.getD ("session-" ++ toString now),
          status := "running", created_at := now, messages := msgs } := by
    simp [start_chat]
  have hlook := lookupSession_insertSession_self reg subtask_id
    { session_id := sid.getD ("session-" ++ toString now),
      status := "running", created_at := now, messages := msgs }
  refine ⟨by simp [start_chat], ?_, ?_⟩
  · rw [hreg, hlook]
    rfl
  · rw [hreg]
    simp only [get_session_status, hlook]
    rfl

/-- C10: once `POST /response` has stored a session, no registry
operation of the surface — DELETE-cancellation, the status writes of a
drained SSE run, or status polling — ever modifies the stored messages
list: after any sequence of such operations the entry still holds
exactly the messages of the original request, and `GET
/response/{subtask_id}` reports `message_count` equal to the number of
messages in the original request body. -/
theorem stored_messages_immutable (req : ChatRequest) (subtask_id : String)
    (now : Nat) (steps : List AgentStep) (ending : UpstreamEnd) (reg : Registry)
    (ops : List SessionOp) (now2 : Nat) :
    (lookupSession
        (applyOps (start_chat req subtask_id now steps ending reg).2 ops)
        subtask_id).map SessionInfo.messages = some req.messages ∧
    (get_session_status
        (applyOps (start_chat req subtask_id now steps ending reg).2 ops)
        subtask_id now2).map SessionStatus.message_count =
      Except.ok req.messages.length := by
  have hbase : (lookupSession (start_chat req subtask_id now steps ending reg).2
      subtask_id).map SessionInfo.messages = some req.messages := by
    have hlook := lookupSession_insertSession_self reg subtask_id
      { session_id := req.session_id.getD ("session-" ++ toString now),
        status := "running", created_at := now, messages := req.messages }
    by_cases h : req.stream <;>
      simp [start_chat, h, stream_chat_events, messages_lookupSession_setStatus, hlook]
  have hmsgs : (lookupSession
      (applyOps (start_chat req subtask_id now steps ending reg).2 ops)
      subtask_id).map SessionInfo.messages = some req.messages := by
    rw [messages_applyOps]
    exact hbase
  refine ⟨hmsgs, ?_⟩
  obtain ⟨s, hs, hsm⟩ := Option.map_eq_some'.mp hmsgs
  rw [get_session_status]
  simp only [hs, hsm]
  rfl
